import Mathlib

/-!
Verification development for the news-generation cloud function
(`src/CYON_Development/DISP2.py`).

The Python module has four pure stages and one HTTP entry point:

* `map_responses`   — translates Qualtrics survey codes to a profile dict;
* `create_prompt`   — builds two constant-shaped prompt strings (not needed
  by any property below, so not embedded);
* `format_body_with_hovers` — rewrites `HOVER_PATTERN` matches
  (`\[([^:]+):([^\]]+)\]`) into HTML span fragments via `re.sub`;
* `generate_news_endpoint`  — the request handler: CORS preflight,
  configuration check, payload check, one upstream call, error mapping.

Strings are modelled as `List Char` / `String`; the handler is modelled as a
total function of the request method, the parsed payload
(`request.get_json(silent=True)` yields `none` for a missing or unparseable
body), the global-client state, and the outcome of the single upstream call.
-/

namespace DISP2

/-! ## Annotation formatter (`HOVER_PATTERN` and `format_body_with_hovers`)

`HOVER_PATTERN = re.compile(r'\[([^:]+):([^\]]+)\]')`. Matching at a given
start position is deterministic: `[^:]+` is greedy and every character it
consumes is a non-colon, so backtracking cannot move the colon — the label
is exactly the text up to the first `:` after `[` (nonempty, no `:` in it,
but it may contain `]` or `[`); likewise the tooltip is exactly the text up
to the first `]` after that colon (nonempty, no `]`). `re.sub` scans left to
right, resuming after each match. -/

/-- `takeUntil c l` splits `l` at the first occurrence of `c`:
`some (pre, post)` with `l = pre ++ c :: post` and `c ∉ pre`, or `none` if
`c` does not occur. -/
def takeUntil (c : Char) : List Char → Option (List Char × List Char)
  | [] => none
  | x :: xs =>
    if x = c then some ([], xs)
    else
      match takeUntil c xs with
      | some (pre, post) => some (x :: pre, post)
      | none => none

/-- Attempt to match `HOVER_PATTERN` at the head of the list: on success
returns `(label, tooltip, rest)` where `rest` is the input after the
closing `]` of the match. -/
def matchHover : List Char → Option (List Char × List Char × List Char)
  | [] => none
  | c :: xs =>
    if c = '[' then
      match takeUntil ':' xs with
      | some (lab, rest1) =>
        if lab = [] then none
        else
          match takeUntil ']' rest1 with
          | some (tip, rest2) => if tip = [] then none else some (lab, tip, rest2)
          | none => none
      | none => none
    else none

/-- The replacement text produced by `replacer` in the Python source:
`<span class="source-label">label<span class="source-tooltip">tooltip</span></span>`. -/
def replacement (lab tip : List Char) : List Char :=
  "<span class=\"source-label\">".data ++ lab ++
    "<span class=\"source-tooltip\">".data ++ tip ++ "</span></span>".data

/-- Fuel-indexed left-to-right scan of `re.sub`: at each position, either the
pattern matches (emit the replacement, resume after the match) or it does not
(copy one character). `fuel ≥ length of the input` makes the fuel irrelevant. -/
def hoverSubF : Nat → List Char → List Char
  | 0, l => l
  | _ + 1, [] => []
  | fuel + 1, c :: cs =>
    match matchHover (c :: cs) with
    | some (lab, tip, rest) => replacement lab tip ++ hoverSubF fuel rest
    | none => c :: hoverSubF fuel cs

/-- `format_body_with_hovers`: `HOVER_PATTERN.sub(replacer, text_body)`. -/
def format_body_with_hovers (s : String) : String :=
  String.mk (hoverSubF s.data.length s.data)

/-! ## Marker grammars

`CodeMarker` is the declarative reading of the compiled pattern actually in
the source (label = one or more non-`:` characters; tooltip = one or more
non-`]` characters). `SpecMarker` additionally forbids `]` inside the label,
following the specification's grammar for citation markers. -/

/-- `l` decomposes at its head as a `HOVER_PATTERN` match with the given
label, tooltip and remainder. -/
def CodeSplit (l lab tip rest : List Char) : Prop :=
  l = '[' :: (lab ++ ':' :: (tip ++ ']' :: rest)) ∧
    lab ≠ [] ∧ ':' ∉ lab ∧ tip ≠ [] ∧ ']' ∉ tip

/-- `s` contains a substring matching the compiled pattern in the source. -/
def CodeMarker (s : List Char) : Prop :=
  ∃ pre lab tip rest, s = pre ++ '[' :: (lab ++ ':' :: (tip ++ ']' :: rest)) ∧
    lab ≠ [] ∧ ':' ∉ lab ∧ tip ≠ [] ∧ ']' ∉ tip

/-- `s` contains a well-formed citation marker in the sense of the
specification: `[label:tooltip]` with a label of one or more characters that
are neither `:` nor `]`, and a tooltip of one or more non-`]` characters. -/
def SpecMarker (s : List Char) : Prop :=
  ∃ pre lab tip rest, s = pre ++ '[' :: (lab ++ ':' :: (tip ++ ']' :: rest)) ∧
    lab ≠ [] ∧ ':' ∉ lab ∧ ']' ∉ lab ∧ tip ≠ [] ∧ ']' ∉ tip

/-- Executable check for `SpecMarker` (a head match of the compiled pattern
whose label is free of `]`, at any start position). -/
def hasSpecMarker : List Char → Bool
  | [] => false
  | c :: cs =>
    (match matchHover (c :: cs) with
     | some (lab, _, _) => decide (']' ∉ lab)
     | none => false) || hasSpecMarker cs

/-- Executable check for `CodeMarker`: the compiled pattern matches at some
start position. -/
def hasCodeMarker : List Char → Bool
  | [] => false
  | c :: cs => (matchHover (c :: cs)).isSome || hasCodeMarker cs

/-! ## Declarative description of the substitution

`RewritesMarkers s t` says `t` arises from `s` by the left-to-right scan that
copies every character at which the pattern does not match and replaces every
match `[label:tooltip]` by its span fragment — the contract of
`format_body_with_hovers` with the pattern grammar read off the source.
`parseSegsF` additionally records the scan as a segment list, witnessing
that surrounding text is kept verbatim and markers are rewritten in order. -/

/-- Declarative rewriting relation for the left-to-right substitution. -/
inductive RewritesMarkers : List Char → List Char → Prop where
  | nil : RewritesMarkers [] []
  | lit {c : Char} {s t : List Char} :
      (¬ ∃ lab tip rest, CodeSplit (c :: s) lab tip rest) →
      RewritesMarkers s t → RewritesMarkers (c :: s) (c :: t)
  | marker {l lab tip rest t : List Char} :
      CodeSplit l lab tip rest → RewritesMarkers rest t →
      RewritesMarkers l (replacement lab tip ++ t)

/-- One segment of the scanned input: a literal character kept verbatim, or
a matched marker. -/
inductive Seg where
  | lit : Char → Seg
  | marker : List Char → List Char → Seg
  deriving DecidableEq

/-- Fuel-indexed segmentation performed by the same scan as `hoverSubF`. -/
def parseSegsF : Nat → List Char → List Seg
  | 0, l => l.map Seg.lit
  | _ + 1, [] => []
  | fuel + 1, c :: cs =>
    match matchHover (c :: cs) with
    | some (lab, tip, rest) => Seg.marker lab tip :: parseSegsF fuel rest
    | none => Seg.lit c :: parseSegsF fuel cs

/-- Segmentation of a whole input. -/
def parseSegs (l : List Char) : List Seg := parseSegsF l.length l

/-- The source text of one segment. -/
def segOrig : Seg → List Char
  | .lit c => [c]
  | .marker lab tip => '[' :: (lab ++ ':' :: (tip ++ [']']))

/-- The output text of one segment. -/
def segOut : Seg → List Char
  | .lit c => [c]
  | .marker lab tip => replacement lab tip

/-- Source text of a segment list. -/
def segsOrig : List Seg → List Char
  | [] => []
  | s :: ss => segOrig s ++ segsOrig ss

/-- Output text of a segment list. -/
def segsOut : List Seg → List Char
  | [] => []
  | s :: ss => segOut s ++ segsOut ss

/-- A marker segment satisfies the pattern's grammar. -/
def SegWF : Seg → Prop
  | .lit _ => True
  | .marker lab tip => lab ≠ [] ∧ ':' ∉ lab ∧ tip ≠ [] ∧ ']' ∉ tip

/-! ## Profile mapper (`map_responses`)

A survey response is a string-keyed, string-valued mapping (the data model
fixes raw answer codes to be strings); it is embedded as an association
list, with `List.lookup` playing the role of `dict.get`. -/

/-- A parsed JSON payload of survey answers: field code ↦ raw answer code. -/
abbrev SurveyData : Type := List (String × String)

def dem1Map : List (String × String) :=
  [("1", "Female"), ("2", "Male"), ("3", "Non-binary / third gender"),
   ("4", "Prefer not to say")]

def dem3Map : List (String × String) :=
  [("1", "8th grade or less"), ("2", "Some high school, no diploma"),
   ("3", "High school graduate or GED"), ("4", "Some college, no degree"),
   ("5", "Associate’s degree"), ("6", "Bachelor’s degree"),
   ("7", "Graduate or professional degree")]

def dem4Map : List (String × String) :=
  [("1", "Under $10,000"), ("2", "$10,000 to $14,999"),
   ("3", "$15,000 to $24,999"), ("4", "$25,000 to $34,999"),
   ("5", "$35,000 to $49,999"), ("6", "$50,000 to $74,999"),
   ("7", "$75,000 to $99,999"), ("8", "$100,000 to $124,999"),
   ("9", "$125,000 to $149,000"), ("10", "$150,000 to $199,999"),
   ("11", "$200,000 or more")]

def dem5Map : List (String × String) :=
  [("1", "Caucasian/White"), ("2", "African American/Black"),
   ("3", "Hispanic/Latino"), ("4", "Asian"),
   ("5", "American Indian/Alaskan Native"),
   ("6", "Native Hawaiian/Pacific Islander"), ("7", "Other")]

def dem7Map : List (String × String) :=
  [("1", "Very liberal"), ("2", "Liberal"), ("3", "Somewhat liberal"),
   ("4", "Moderate"), ("5", "Somewhat conservative"), ("6", "Conservative"),
   ("7", "Very conservative")]

def dem8Map : List (String × String) :=
  [("1", "Democrat"), ("2", "Republican"), ("3", "Independent")]

def vot2Map : List (String × String) :=
  [("1", "The Democratic candidate (Kamala Harris)"),
   ("2", "The Republican candidate (Donald Trump)"),
   ("3", "Another candidate")]

def ccp1Map : List (String × String) :=
  [("1", "Strongly opposes U.S. withdrawal from Paris Agreement"),
   ("2", "Opposes U.S. withdrawal from Paris Agreement"),
   ("3", "Somewhat opposes U.S. withdrawal from Paris Agreement"),
   ("4", "Neutral on U.S. withdrawal from Paris Agreement"),
   ("5", "Somewhat supports U.S. withdrawal from Paris Agreement"),
   ("6", "Supports U.S. withdrawal from Paris Agreement"),
   ("7", "Strongly supports U.S. withdrawal from Paris Agreement")]

/-- `mappings[K].get(data.get(K), dflt)`: look the raw code up in the
attribute's table, falling back to `dflt` when the code is absent from the
payload or not a key of the table. -/
def lookupMap (m : List (String × String)) (code : Option String) (dflt : String) : String :=
  match code with
  | none => dflt
  | some c => (m.lookup c).getD dflt

/-- `map_responses(data)`: builds the participant-profile dict, in the
insertion order of the Python dict literal. -/
def map_responses (data : SurveyData) : List (String × String) :=
  [("Gender", lookupMap dem1Map (data.lookup "DEM1") "Not specified"),
   ("Age", (data.lookup "DEM2").getD "Not specified"),
   ("Education", lookupMap dem3Map (data.lookup "DEM3") "Not specified"),
   ("Income", lookupMap dem4Map (data.lookup "DEM4") "Not specified"),
   ("Race/Ethnicity", lookupMap dem5Map (data.lookup "DEM5") "Not specified"),
   ("Political Stance", lookupMap dem7Map (data.lookup "DEM7") "Not specified"),
   ("Party Affiliation", lookupMap dem8Map (data.lookup "DEM8") "Not specified"),
   ("2024 Vote", lookupMap vot2Map (data.lookup "VOT2") "Not specified"),
   ("Paris Agreement Stance",
     lookupMap ccp1Map (data.lookup "CCP1_1")
       "Neutral on U.S. withdrawal from Paris Agreement")]

/-- The nine profile attribute names, in the order the source constructs them. -/
def profileKeys : List String :=
  ["Gender", "Age", "Education", "Income", "Race/Ethnicity",
   "Political Stance", "Party Affiliation", "2024 Vote",
   "Paris Agreement Stance"]

/-! ## Request handler (`generate_news_endpoint`)

The handler is a total function of the observable request inputs:

* `clientOk` — whether the module-level `CLIENT` initialised (the
  `OPENAI_API_KEY` environment variable was set);
* `method` — the HTTP method string;
* `payload` — the value of `request.get_json(silent=True)`: `none` for a
  missing or unparseable body, otherwise the parsed survey dict (the data
  model fixes payloads to string-keyed, string-valued objects);
* `upstream` — the outcome of the single `CLIENT.chat.completions.create`
  call, consulted only if control reaches it.  `success` carries the result
  of `json.loads` on the completion content (`fail msg` when that raises).

Python-truthiness of the payload matters: `if not request_data` is taken
both for `None` and for an empty dict. -/

/-- A JSON value (integers stand in for JSON numbers; no property here
depends on non-integral numbers). -/
inductive Jval where
  | jnull : Jval
  | jbool : Bool → Jval
  | jnum : Int → Jval
  | jstr : String → Jval
  | jarr : List Jval → Jval
  | jobj : List (String × Jval) → Jval

/-- Result of `json.loads` on the completion content. -/
inductive JContent where
  | ok : Jval → JContent
  | fail : String → JContent

/-- Outcome of the single upstream OpenAI call; each failure constructor
carries `str(e)` for the raised exception. -/
inductive Upstream where
  | success : JContent → Upstream
  | rateLimited : String → Upstream
  | connectionError : String → Upstream
  | apiError : String → Upstream

/-- An HTTP response body: the empty-text preflight body or a JSON document. -/
inductive RespBody where
  | text : String → RespBody
  | json : Jval → RespBody

/-- A `(body, status, headers)` triple as returned by the handler. -/
structure HttpResponse where
  body : RespBody
  status : Nat
  headers : List (String × String)

/-- The four headers of the preflight branch. -/
def preflightHeaders : List (String × String) :=
  [("Access-Control-Allow-Origin", "*"),
   ("Access-Control-Allow-Methods", "POST"),
   ("Access-Control-Allow-Headers", "Content-Type"),
   ("Access-Control-Max-Age", "3600")]

/-- The standard CORS header attached to every non-preflight response. -/
def corsHeaders : List (String × String) :=
  [("Access-Control-Allow-Origin", "*")]

/-- The Python type name of a parsed JSON value, as it appears in
`AttributeError` / `TypeError` messages. -/
def pyTypeName : Jval → String
  | .jnull => "NoneType"
  | .jbool _ => "bool"
  | .jnum _ => "int"
  | .jstr _ => "str"
  | .jarr _ => "list"
  | .jobj _ => "dict"

/-- Body of the generic 500 branch: `{"error": str(e), "message": "An
internal server error occurred."}`. -/
def internalErrorResp (msg : String) : HttpResponse :=
  ⟨.json (.jobj [("error", .jstr msg),
                 ("message", .jstr "An internal server error occurred.")]),
   500, corsHeaders⟩

/-- The participant profile serialised into the `debug_info` object. -/
def profileJson (profile : List (String × String)) : Jval :=
  .jobj (profile.map fun p => (p.1, .jstr p.2))

/-- `generate_news_endpoint`, branch for branch:

1. `OPTIONS` → `('', 204, preflight headers)`;
2. `CLIENT is None` → `EnvironmentError`, caught → 500 configuration body;
3. falsy payload (`None` or `{}`) → 400 `{"error": ...}` (no `"message"`);
4. upstream exceptions → 429 / 503 / 502 bodies;
5. `json.loads` failure on the completion content → generic 500;
6. content not a dict → `AttributeError` on `.get` → generic 500;
7. `body` value not a string → `TypeError` inside `re.sub` → generic 500;
8. otherwise 200 with headline, formatted body, and the profile echo. -/
def generate_news_endpoint (clientOk : Bool) (method : String)
    (payload : Option SurveyData) (upstream : Upstream) : HttpResponse :=
  if method = "OPTIONS" then
    ⟨.text "", 204, preflightHeaders⟩
  else if clientOk = false then
    ⟨.json (.jobj
      [("error", .jstr "OPENAI_API_KEY is not set or client failed to initialize."),
       ("message", .jstr "Server configuration error.")]), 500, corsHeaders⟩
  else
    match payload with
    | none =>
      ⟨.json (.jobj [("error", .jstr "Missing JSON payload in request.")]),
       400, corsHeaders⟩
    | some data =>
      if data = [] then
        ⟨.json (.jobj [("error", .jstr "Missing JSON payload in request.")]),
         400, corsHeaders⟩
      else
        match upstream with
        | .rateLimited msg =>
          ⟨.json (.jobj [("error", .jstr "OpenAI API rate limit exceeded."),
                         ("message", .jstr msg)]), 429, corsHeaders⟩
        | .connectionError msg =>
          ⟨.json (.jobj [("error", .jstr "Could not connect to OpenAI API."),
                         ("message", .jstr msg)]), 503, corsHeaders⟩
        | .apiError msg =>
          ⟨.json (.jobj [("error", .jstr "OpenAI API returned an error."),
                         ("message", .jstr msg)]), 502, corsHeaders⟩
        | .success content =>
          match content with
          | .fail msg => internalErrorResp msg
          | .ok v =>
            match v with
            | .jobj fields =>
              let headline := (fields.lookup "headline").getD (.jstr "No Headline")
              match (fields.lookup "body").getD (.jstr "No content generated.") with
              | .jstr bodyRaw =>
                ⟨.json (.jobj
                  [("headline", headline),
                   ("body", .jstr (format_body_with_hovers bodyRaw)),
                   ("debug_info", .jobj
                     [("profile", profileJson (map_responses data))])]),
                 200, corsHeaders⟩
              | other =>
                internalErrorResp
                  ("expected string or bytes-like object, got \x27" ++
                    pyTypeName other ++ "\x27")
            | nonDict =>
              internalErrorResp
                ("\x27" ++ pyTypeName nonDict ++
                  "\x27 object has no attribute \x27get\x27")

/-- Key lookup in a JSON response body (`none` when the body is not a JSON
object or the key is absent). -/
def bodyField (r : HttpResponse) (k : String) : Option Jval :=
  match r.body with
  | .json (.jobj fields) => fields.lookup k
  | _ => none

/-- The key list of the `debug_info.profile` object of a response, when
that path exists. -/
def debugProfileKeys (r : HttpResponse) : Option (List String) :=
  match bodyField r "debug_info" with
  | some (.jobj dbg) =>
    match dbg.lookup "profile" with
    | some (.jobj profile) => some (profile.map Prod.fst)
    | _ => none
  | _ => none

/-! ## Lemmas about the pattern matcher -/

theorem takeUntil_sound (c : Char) :
    ∀ l pre post, takeUntil c l = some (pre, post) →
      l = pre ++ c :: post ∧ c ∉ pre := by
  intro l
  induction l with
  | nil => intro pre post h; simp [takeUntil] at h
  | cons x xs ih =>
    intro pre post h
    rw [takeUntil] at h
    by_cases hx : x = c
    · rw [if_pos hx] at h
      simp only [Option.some.injEq, Prod.mk.injEq] at h
      obtain ⟨rfl, rfl⟩ := h
      subst hx
      simp
    · rw [if_neg hx] at h
      cases htu : takeUntil c xs with
      | none => rw [htu] at h; cases h
      | some pr =>
        obtain ⟨pre1, post1⟩ := pr
        rw [htu] at h
        simp only [Option.some.injEq, Prod.mk.injEq] at h
        obtain ⟨h1, h2⟩ := h
        subst h1; subst h2
        obtain ⟨e, hnot⟩ := ih pre1 post1 htu
        subst e
        refine ⟨by simp, ?_⟩
        intro hc
        rcases List.mem_cons.mp hc with hc | hc
        · exact hx hc.symm
        · exact hnot hc

theorem takeUntil_complete (c : Char) :
    ∀ pre post, c ∉ pre → takeUntil c (pre ++ c :: post) = some (pre, post) := by
  intro pre
  induction pre with
  | nil => intro post _; simp [takeUntil]
  | cons x xs ih =>
    intro post h
    have hx : ¬ x = c := by
      intro e; exact h (by simp [e])
    have hxs : c ∉ xs := fun hc => h (List.mem_cons_of_mem _ hc)
    rw [List.cons_append, takeUntil, if_neg hx, ih post hxs]

theorem matchHover_sound :
    ∀ l lab tip rest, matchHover l = some (lab, tip, rest) → CodeSplit l lab tip rest := by
  intro l lab tip rest h
  cases l with
  | nil => cases h
  | cons c xs =>
    rw [matchHover] at h
    split at h
    · rename_i hc
      split at h
      · rename_i lab1 rest1 h1
        split at h
        · cases h
        · rename_i hlab
          split at h
          · rename_i tip1 rest2 h2
            split at h
            · cases h
            · rename_i htip
              simp only [Option.some.injEq, Prod.mk.injEq] at h
              obtain ⟨rfl, rfl, rfl⟩ := h
              subst hc
              obtain ⟨exs, hnc⟩ := takeUntil_sound ':' xs _ _ h1
              obtain ⟨er1, hnb⟩ := takeUntil_sound ']' _ _ _ h2
              subst er1; subst exs
              exact ⟨rfl, hlab, hnc, htip, hnb⟩
          · cases h
      · cases h
    · cases h

theorem matchHover_complete {l lab tip rest : List Char}
    (h : CodeSplit l lab tip rest) : matchHover l = some (lab, tip, rest) := by
  obtain ⟨rfl, hlab, hnc, htip, hnb⟩ := h
  rw [matchHover, if_pos rfl, takeUntil_complete ':' lab _ hnc]
  simp only [if_neg hlab]
  rw [takeUntil_complete ']' tip _ hnb]
  simp only [if_neg htip]

/-- A successful head match consumes a strict, ≥ 4 character prefix. -/
theorem matchHover_length {l lab tip rest : List Char}
    (h : matchHover l = some (lab, tip, rest)) : rest.length < l.length := by
  obtain ⟨e, _, _, _, _⟩ := matchHover_sound l lab tip rest h
  subst e
  simp [List.length_append]
  omega

/-- A declarative code-grammar marker makes the executable check fire. -/
theorem codeMarker_to_bool {s : List Char} (h : CodeMarker s) :
    hasCodeMarker s = true := by
  obtain ⟨pre, lab, tip, rest, e, h1, h2, h3, h4⟩ := h
  subst e
  induction pre with
  | nil =>
    have hm := matchHover_complete (l := '[' :: (lab ++ ':' :: (tip ++ ']' :: rest)))
      ⟨rfl, h1, h2, h3, h4⟩
    simp only [List.nil_append, hasCodeMarker, hm]
    simp
  | cons p ps ih =>
    rw [List.cons_append, hasCodeMarker, ih]
    simp

/-- A declarative spec-grammar marker makes the executable check fire. -/
theorem specMarker_to_bool {s : List Char} (h : SpecMarker s) :
    hasSpecMarker s = true := by
  obtain ⟨pre, lab, tip, rest, e, h1, h2, h2b, h3, h4⟩ := h
  subst e
  induction pre with
  | nil =>
    have hm := matchHover_complete (l := '[' :: (lab ++ ':' :: (tip ++ ']' :: rest)))
      ⟨rfl, h1, h2, h3, h4⟩
    simp only [List.nil_append, hasSpecMarker, hm]
    simp [h2b]
  | cons p ps ih =>
    rw [List.cons_append, hasSpecMarker, ih]
    simp

/-! ## Lemmas about the scan -/

/-- On input free of pattern matches the scan is the identity. -/
theorem hoverSubF_id :
    ∀ fuel l, l.length ≤ fuel → ¬ CodeMarker l → hoverSubF fuel l = l := by
  intro fuel
  induction fuel with
  | zero => intro l _ _; rfl
  | succ f ih =>
    intro l hlen hnm
    cases l with
    | nil => rfl
    | cons c cs =>
      rw [hoverSubF]
      cases hm : matchHover (c :: cs) with
      | some trip =>
        obtain ⟨lab, tip, rest⟩ := trip
        obtain ⟨e, h1, h2, h3, h4⟩ := matchHover_sound _ _ _ _ hm
        exact absurd ⟨[], lab, tip, rest, by simpa using e, h1, h2, h3, h4⟩ hnm
      | none =>
        have hcs : ¬ CodeMarker cs := by
          intro hx
          obtain ⟨pre, lab, tip, rest, e, h1, h2, h3, h4⟩ := hx
          exact hnm ⟨c :: pre, lab, tip, rest, by simp [e], h1, h2, h3, h4⟩
        have : cs.length ≤ f := by simpa using Nat.le_of_succ_le_succ hlen
        rw [ih cs this hcs]

/-- The scan realises the declarative rewriting relation. -/
theorem hoverSubF_rewrites :
    ∀ fuel l, l.length ≤ fuel → RewritesMarkers l (hoverSubF fuel l) := by
  intro fuel
  induction fuel with
  | zero =>
    intro l hlen
    have he : l = [] := List.length_eq_zero.mp (Nat.le_zero.mp hlen)
    subst he
    exact RewritesMarkers.nil
  | succ f ih =>
    intro l hlen
    cases l with
    | nil => exact RewritesMarkers.nil
    | cons c cs =>
      rw [hoverSubF]
      cases hm : matchHover (c :: cs) with
      | some trip =>
        obtain ⟨lab, tip, rest⟩ := trip
        have hs := matchHover_sound _ _ _ _ hm
        have h1 := matchHover_length hm
        have hrest : rest.length ≤ f := by
          simp only [List.length_cons] at h1 hlen
          omega
        exact RewritesMarkers.marker hs (ih rest hrest)
      | none =>
        have hnot : ¬ ∃ lab tip rest, CodeSplit (c :: cs) lab tip rest := by
          rintro ⟨lab, tip, rest, hsplit⟩
          rw [matchHover_complete hsplit] at hm
          cases hm
        have hcs : cs.length ≤ f := by simpa using Nat.le_of_succ_le_succ hlen
        exact RewritesMarkers.lit hnot (ih cs hcs)

/-- The segmentation reassembles to the original input. -/
theorem parseSegsF_orig :
    ∀ fuel l, l.length ≤ fuel → segsOrig (parseSegsF fuel l) = l := by
  intro fuel
  induction fuel with
  | zero =>
    intro l hlen
    have he : l = [] := List.length_eq_zero.mp (Nat.le_zero.mp hlen)
    subst he
    rfl
  | succ f ih =>
    intro l hlen
    cases l with
    | nil => rfl
    | cons c cs =>
      rw [parseSegsF]
      cases hm : matchHover (c :: cs) with
      | some trip =>
        obtain ⟨lab, tip, rest⟩ := trip
        obtain ⟨e, _, _, _, _⟩ := matchHover_sound _ _ _ _ hm
        have h1 := matchHover_length hm
        have hrest : rest.length ≤ f := by
          simp only [List.length_cons] at h1 hlen
          omega
        rw [segsOrig, ih rest hrest, segOrig, e]
        simp
      | none =>
        have hcs : cs.length ≤ f := by simpa using Nat.le_of_succ_le_succ hlen
        rw [segsOrig, ih cs hcs, segOrig]
        rfl

/-- The segmentation's output sides concatenate to the scan's output. -/
theorem parseSegsF_out :
    ∀ fuel l, l.length ≤ fuel → segsOut (parseSegsF fuel l) = hoverSubF fuel l := by
  intro fuel
  induction fuel with
  | zero =>
    intro l hlen
    have he : l = [] := List.length_eq_zero.mp (Nat.le_zero.mp hlen)
    subst he
    rfl
  | succ f ih =>
    intro l hlen
    cases l with
    | nil => rfl
    | cons c cs =>
      rw [parseSegsF, hoverSubF]
      cases hm : matchHover (c :: cs) with
      | some trip =>
        obtain ⟨lab, tip, rest⟩ := trip
        have h1 := matchHover_length hm
        have hrest : rest.length ≤ f := by
          simp only [List.length_cons] at h1 hlen
          omega
        rw [segsOut, ih rest hrest, segOut]
      | none =>
        have hcs : cs.length ≤ f := by simpa using Nat.le_of_succ_le_succ hlen
        rw [segsOut, ih cs hcs, segOut]
        rfl

/-- Every marker segment produced by the segmentation obeys the grammar. -/
theorem parseSegsF_wf :
    ∀ fuel l, l.length ≤ fuel → ∀ s ∈ parseSegsF fuel l, SegWF s := by
  intro fuel
  induction fuel with
  | zero =>
    intro l hlen s hs
    have he : l = [] := List.length_eq_zero.mp (Nat.le_zero.mp hlen)
    subst he
    cases hs
  | succ f ih =>
    intro l hlen s hs
    cases l with
    | nil => cases hs
    | cons c cs =>
      rw [parseSegsF] at hs
      revert hs
      cases hm : matchHover (c :: cs) with
      | some trip =>
        obtain ⟨lab, tip, rest⟩ := trip
        obtain ⟨_, h1, h2, h3, h4⟩ := matchHover_sound _ _ _ _ hm
        have hl := matchHover_length hm
        have hrest : rest.length ≤ f := by
          simp only [List.length_cons] at hl hlen
          omega
        intro hs
        rcases List.mem_cons.mp hs with he | hmem
        · subst he
          exact ⟨h1, h2, h3, h4⟩
        · exact ih rest hrest s hmem
      | none =>
        have hcs : cs.length ≤ f := by simpa using Nat.le_of_succ_le_succ hlen
        intro hs
        rcases List.mem_cons.mp hs with he | hmem
        · subst he
          trivial
        · exact ih cs hcs s hmem

/-- A lookup through an attribute table yields the default when the code is
absent from the payload or not a key of the table. -/
theorem lookupMap_default (m : List (String × String)) (code : Option String) (dflt : String)
    (h : code = none ∨ ∀ v, code = some v → m.lookup v = none) :
    lookupMap m code dflt = dflt := by
  cases code with
  | none => rfl
  | some v =>
    rcases h with h | h
    · cases h
    · rw [lookupMap, h v rfl]
      rfl

/-! ## The claims -/

/-- C1 (amended): `format_body_with_hovers` rewrites, in one left-to-right
scan, exactly the substrings matched by the compiled pattern — `[label:tooltip]`
with a label of one or more non-`:` characters (the label MAY contain `]`)
and a tooltip of one or more non-`]` characters — into the span fragment
displaying the label with the tooltip attached, and leaves every other
character untouched (`RewritesMarkers` is the declarative statement of that
contract). -/
theorem format_body_follows_hover_pattern (s : String) :
    RewritesMarkers s.data (format_body_with_hovers s).data :=
  hoverSubF_rewrites s.data.length s.data (le_refl _)

/-- C1 (counterexample): `"[a]b:c]"` contains no marker of the claimed
grammar — its only bracketed candidate has `]` inside the label — yet the
formatter rewrites it instead of leaving it untouched. -/
theorem format_rewrites_bracket_label_marker :
    (¬ SpecMarker ("[a]b:c]".data)) ∧
      format_body_with_hovers "[a]b:c]" ≠ "[a]b:c]" := by
  constructor
  · intro h
    have hb := specMarker_to_bool h
    revert hb
    decide
  · decide

/-- C5 (amended): the formatter is the identity on text containing no
substring matched by the compiled pattern; on any input, the scan decomposes
the input into literal characters and matched markers such that the
concatenated source sides reproduce the input byte-identically and the
concatenated output sides (markers replaced in their original order)
reproduce the formatter's output. -/
theorem format_identity_and_segmentation (s : String) :
    (¬ CodeMarker s.data → format_body_with_hovers s = s) ∧
    segsOrig (parseSegs s.data) = s.data ∧
    segsOut (parseSegs s.data) = (format_body_with_hovers s).data ∧
    ∀ seg ∈ parseSegs s.data, SegWF seg := by
  refine ⟨?_, ?_, ?_, ?_⟩
  · intro h
    have he := hoverSubF_id s.data.length s.data (le_refl _) h
    show String.mk (hoverSubF s.data.length s.data) = s
    rw [he]
  · exact parseSegsF_orig _ _ (le_refl _)
  · exact parseSegsF_out _ _ (le_refl _)
  · exact parseSegsF_wf _ _ (le_refl _)

/-- C5 (witness): the identity and segmentation facts evaluated on concrete
inputs. -/
theorem format_identity_and_segmentation_witness :
    format_body_with_hovers "The plain body." = "The plain body." ∧
    segsOrig (parseSegs "ab".data) = "ab".data ∧
    SegWF (Seg.lit 'a') :=
  ⟨(format_identity_and_segmentation "The plain body.").1
      (fun h => by have hb := codeMarker_to_bool h; revert hb; decide),
   (format_identity_and_segmentation "ab").2.1,
   (format_identity_and_segmentation "ab").2.2.2 (Seg.lit 'a') (by decide)⟩

/-- C5 (counterexample): `"x[u]v:w]y"` contains zero well-formed citation
markers in the specification's grammar, yet the formatter does not return it
unchanged. -/
theorem format_changes_marker_free_text :
    (¬ SpecMarker ("x[u]v:w]y".data)) ∧
      format_body_with_hovers "x[u]v:w]y" ≠ "x[u]v:w]y" := by
  constructor
  · intro h
    have hb := specMarker_to_bool h
    revert hb
    decide
  · decide

/-- C3 (amended): on the payload `{DEM1: "1", DEM3: "6", VOT2: "2"}` the
mapper yields Gender "Female", Education "Bachelor’s degree" (with the
typographic apostrophe U+2019, exactly as in the source table),
2024 Vote "The Republican candidate (Donald Trump)", and the documented
defaults everywhere else. -/
theorem map_responses_concrete_profile :
    map_responses [("DEM1", "1"), ("DEM3", "6"), ("VOT2", "2")] =
      [("Gender", "Female"),
       ("Age", "Not specified"),
       ("Education", "Bachelor’s degree"),
       ("Income", "Not specified"),
       ("Race/Ethnicity", "Not specified"),
       ("Political Stance", "Not specified"),
       ("Party Affiliation", "Not specified"),
       ("2024 Vote", "The Republican candidate (Donald Trump)"),
       ("Paris Agreement Stance",
         "Neutral on U.S. withdrawal from Paris Agreement")] := rfl

/-- C3 (counterexample): the education label produced for code "6" is
`Bachelor’s degree` with the typographic apostrophe U+2019, which differs
from the claimed `Bachelor's degree` spelled with the ASCII apostrophe. -/
theorem map_responses_education_apostrophe :
    (map_responses [("DEM1", "1"), ("DEM3", "6"), ("VOT2", "2")]).lookup "Education" =
        some "Bachelor’s degree" ∧
      (map_responses [("DEM1", "1"), ("DEM3", "6"), ("VOT2", "2")]).lookup "Education" ≠
        some "Bachelor\x27s degree" := by
  exact ⟨rfl, by decide⟩

/-- C4: for every payload and each of the nine attributes, a missing or
unrecognized code yields the documented default — `"Not specified"` for
eight attributes and the neutral Paris-Agreement label (distinct from
`"Not specified"`) for `CCP1_1`; the mapper is a total function, so no
exception is possible. -/
theorem map_responses_defaults (data : SurveyData) :
    ((data.lookup "DEM1" = none ∨ ∀ v, data.lookup "DEM1" = some v → dem1Map.lookup v = none) →
      (map_responses data).lookup "Gender" = some "Not specified") ∧
    (data.lookup "DEM2" = none →
      (map_responses data).lookup "Age" = some "Not specified") ∧
    ((data.lookup "DEM3" = none ∨ ∀ v, data.lookup "DEM3" = some v → dem3Map.lookup v = none) →
      (map_responses data).lookup "Education" = some "Not specified") ∧
    ((data.lookup "DEM4" = none ∨ ∀ v, data.lookup "DEM4" = some v → dem4Map.lookup v = none) →
      (map_responses data).lookup "Income" = some "Not specified") ∧
    ((data.lookup "DEM5" = none ∨ ∀ v, data.lookup "DEM5" = some v → dem5Map.lookup v = none) →
      (map_responses data).lookup "Race/Ethnicity" = some "Not specified") ∧
    ((data.lookup "DEM7" = none ∨ ∀ v, data.lookup "DEM7" = some v → dem7Map.lookup v = none) →
      (map_responses data).lookup "Political Stance" = some "Not specified") ∧
    ((data.lookup "DEM8" = none ∨ ∀ v, data.lookup "DEM8" = some v → dem8Map.lookup v = none) →
      (map_responses data).lookup "Party Affiliation" = some "Not specified") ∧
    ((data.lookup "VOT2" = none ∨ ∀ v, data.lookup "VOT2" = some v → vot2Map.lookup v = none) →
      (map_responses data).lookup "2024 Vote" = some "Not specified") ∧
    ((data.lookup "CCP1_1" = none ∨ ∀ v, data.lookup "CCP1_1" = some v → ccp1Map.lookup v = none) →
      (map_responses data).lookup "Paris Agreement Stance" =
        some "Neutral on U.S. withdrawal from Paris Agreement") ∧
    "Neutral on U.S. withdrawal from Paris Agreement" ≠ "Not specified" := by
  refine ⟨?_, ?_, ?_, ?_, ?_, ?_, ?_, ?_, ?_, by decide⟩
  · intro h
    show some (lookupMap dem1Map (data.lookup "DEM1") "Not specified") = _
    exact congrArg some (lookupMap_default _ _ _ h)
  · intro h
    show some ((data.lookup "DEM2").getD "Not specified") = _
    rw [h]
    rfl
  · intro h
    show some (lookupMap dem3Map (data.lookup "DEM3") "Not specified") = _
    exact congrArg some (lookupMap_default _ _ _ h)
  · intro h
    show some (lookupMap dem4Map (data.lookup "DEM4") "Not specified") = _
    exact congrArg some (lookupMap_default _ _ _ h)
  · intro h
    show some (lookupMap dem5Map (data.lookup "DEM5") "Not specified") = _
    exact congrArg some (lookupMap_default _ _ _ h)
  · intro h
    show some (lookupMap dem7Map (data.lookup "DEM7") "Not specified") = _
    exact congrArg some (lookupMap_default _ _ _ h)
  · intro h
    show some (lookupMap dem8Map (data.lookup "DEM8") "Not specified") = _
    exact congrArg some (lookupMap_default _ _ _ h)
  · intro h
    show some (lookupMap vot2Map (data.lookup "VOT2") "Not specified") = _
    exact congrArg some (lookupMap_default _ _ _ h)
  · intro h
    show some (lookupMap ccp1Map (data.lookup "CCP1_1")
      "Neutral on U.S. withdrawal from Paris Agreement") = _
    exact congrArg some (lookupMap_default _ _ _ h)

/-- C4 (witness): the defaults on the empty payload. -/
theorem map_responses_defaults_witness :
    (map_responses []).lookup "Gender" = some "Not specified" ∧
    (map_responses []).lookup "Age" = some "Not specified" ∧
    (map_responses []).lookup "Education" = some "Not specified" ∧
    (map_responses []).lookup "Income" = some "Not specified" ∧
    (map_responses []).lookup "Race/Ethnicity" = some "Not specified" ∧
    (map_responses []).lookup "Political Stance" = some "Not specified" ∧
    (map_responses []).lookup "Party Affiliation" = some "Not specified" ∧
    (map_responses []).lookup "2024 Vote" = some "Not specified" ∧
    (map_responses []).lookup "Paris Agreement Stance" =
      some "Neutral on U.S. withdrawal from Paris Agreement" :=
  ⟨(map_responses_defaults []).1 (Or.inl rfl),
   (map_responses_defaults []).2.1 rfl,
   (map_responses_defaults []).2.2.1 (Or.inl rfl),
   (map_responses_defaults []).2.2.2.1 (Or.inl rfl),
   (map_responses_defaults []).2.2.2.2.1 (Or.inl rfl),
   (map_responses_defaults []).2.2.2.2.2.1 (Or.inl rfl),
   (map_responses_defaults []).2.2.2.2.2.2.1 (Or.inl rfl),
   (map_responses_defaults []).2.2.2.2.2.2.2.1 (Or.inl rfl),
   (map_responses_defaults []).2.2.2.2.2.2.2.2.1 (Or.inl rfl)⟩

/-- C2 (amended): every error response (status neither 200 nor 204) carries
an `"error"` string and a status in {400, 429, 500, 502, 503}, and every
error response except the 400 bad-request one also carries a `"message"`
string; the 400 body has only the `"error"` key. -/
theorem error_responses_shape (clientOk : Bool) (method : String)
    (payload : Option SurveyData) (upstream : Upstream) (r : HttpResponse)
    (hr : r = generate_news_endpoint clientOk method payload upstream)
    (h200 : r.status ≠ 200) (h204 : r.status ≠ 204) :
    (∃ m, bodyField r "error" = some (Jval.jstr m)) ∧
    r.status ∈ [400, 429, 500, 502, 503] ∧
    (r.status ≠ 400 → ∃ m, bodyField r "message" = some (Jval.jstr m)) := by
  subst hr
  unfold generate_news_endpoint at h200 h204 ⊢
  repeat' split
  all_goals simp_all [internalErrorResp, bodyField]
  all_goals exact ⟨_, rfl⟩

/-- C2 (witness): the error-response shape evaluated on the
missing-configuration request. -/
theorem error_responses_shape_witness :
    (∃ m, bodyField (generate_news_endpoint false "POST" none (Upstream.apiError "boom"))
        "error" = some (Jval.jstr m)) ∧
    (generate_news_endpoint false "POST" none (Upstream.apiError "boom")).status ∈
      [400, 429, 500, 502, 503] ∧
    ((generate_news_endpoint false "POST" none (Upstream.apiError "boom")).status ≠ 400 →
      ∃ m, bodyField (generate_news_endpoint false "POST" none (Upstream.apiError "boom"))
          "message" = some (Jval.jstr m)) :=
  error_responses_shape false "POST" none (Upstream.apiError "boom") _ rfl
    (by decide) (by decide)

/-- C2 (counterexample): the 400 bad-request response has an `"error"` key
but NO `"message"` key, contradicting the claim that every error body
contains both. -/
theorem bad_request_lacks_message :
    (generate_news_endpoint true "POST" none
        (Upstream.success (JContent.ok Jval.jnull))).status = 400 ∧
    bodyField (generate_news_endpoint true "POST" none
        (Upstream.success (JContent.ok Jval.jnull))) "error" =
      some (Jval.jstr "Missing JSON payload in request.") ∧
    bodyField (generate_news_endpoint true "POST" none
        (Upstream.success (JContent.ok Jval.jnull))) "message" = none :=
  ⟨rfl, rfl, rfl⟩

/-- C6: with the client configured and a truthy payload, each upstream
failure mode yields its own distinct status — 429 for a rate limit, 503 for
a connection failure, 502 for a generic API error — with a body holding the
`"error"` and `"message"` strings and the cross-origin header attached. -/
theorem upstream_failure_status_mapping (msg : String) (data : SurveyData)
    (hd : data ≠ []) :
    generate_news_endpoint true "POST" (some data) (Upstream.rateLimited msg) =
      ⟨.json (.jobj [("error", .jstr "OpenAI API rate limit exceeded."),
                     ("message", .jstr msg)]), 429, corsHeaders⟩ ∧
    generate_news_endpoint true "POST" (some data) (Upstream.connectionError msg) =
      ⟨.json (.jobj [("error", .jstr "Could not connect to OpenAI API."),
                     ("message", .jstr msg)]), 503, corsHeaders⟩ ∧
    generate_news_endpoint true "POST" (some data) (Upstream.apiError msg) =
      ⟨.json (.jobj [("error", .jstr "OpenAI API returned an error."),
                     ("message", .jstr msg)]), 502, corsHeaders⟩ := by
  refine ⟨?_, ?_, ?_⟩ <;> simp [generate_news_endpoint, hd]

/-- C6 (witness): the three failure statuses on a concrete payload. -/
theorem upstream_failure_status_mapping_witness :
    generate_news_endpoint true "POST" (some [("DEM1", "1")])
        (Upstream.rateLimited "limit") =
      ⟨.json (.jobj [("error", .jstr "OpenAI API rate limit exceeded."),
                     ("message", .jstr "limit")]), 429, corsHeaders⟩ ∧
    generate_news_endpoint true "POST" (some [("DEM1", "1")])
        (Upstream.connectionError "limit") =
      ⟨.json (.jobj [("error", .jstr "Could not connect to OpenAI API."),
                     ("message", .jstr "limit")]), 503, corsHeaders⟩ ∧
    generate_news_endpoint true "POST" (some [("DEM1", "1")])
        (Upstream.apiError "limit") =
      ⟨.json (.jobj [("error", .jstr "OpenAI API returned an error."),
                     ("message", .jstr "limit")]), 502, corsHeaders⟩ :=
  upstream_failure_status_mapping "limit" [("DEM1", "1")] (by decide)

/-- C7: with the client configured, a `POST` whose body is missing or not
parseable as JSON (`get_json(silent=True)` returned `None`) yields status
400 with an `"error"` key; the response is the same for every possible
upstream outcome, i.e. no outbound call influences (or is needed for) it. -/
theorem missing_payload_bad_request (upstream : Upstream) :
    generate_news_endpoint true "POST" none upstream =
      ⟨.json (.jobj [("error", .jstr "Missing JSON payload in request.")]),
       400, corsHeaders⟩ := rfl

/-- C8: an `OPTIONS` request — whatever the configuration, payload and
upstream state — yields 204 with an empty body and the preflight headers,
which advertise origin `*`, method `POST` and allowed header `Content-Type`;
no other component's result is consulted (the response is constant in all
other inputs). -/
theorem preflight_options_response (clientOk : Bool) (payload : Option SurveyData)
    (upstream : Upstream) :
    generate_news_endpoint clientOk "OPTIONS" payload upstream =
      ⟨.text "", 204, preflightHeaders⟩ ∧
    ("Access-Control-Allow-Origin", "*") ∈ preflightHeaders ∧
    ("Access-Control-Allow-Methods", "POST") ∈ preflightHeaders ∧
    ("Access-Control-Allow-Headers", "Content-Type") ∈ preflightHeaders := by
  refine ⟨rfl, ?_, ?_, ?_⟩ <;> simp [preflightHeaders]

/-- C9 (amended): when the completion content parses as a JSON *object*,
a missing `"headline"` key is replaced by `"No Headline"` (provided any
present `"body"` value is a string, as the JSON response mode guarantees)
and a missing `"body"` key is replaced by `"No content generated."`, with
success status 200 in both cases. -/
theorem missing_keys_placeholders (data : SurveyData) (fields : List (String × Jval))
    (hd : data ≠ []) :
    ((fields.lookup "headline" = none) →
      (∀ v, fields.lookup "body" = some v → ∃ str, v = Jval.jstr str) →
      (generate_news_endpoint true "POST" (some data)
          (Upstream.success (JContent.ok (Jval.jobj fields)))).status = 200 ∧
      bodyField (generate_news_endpoint true "POST" (some data)
          (Upstream.success (JContent.ok (Jval.jobj fields)))) "headline" =
        some (Jval.jstr "No Headline")) ∧
    ((fields.lookup "body" = none) →
      (generate_news_endpoint true "POST" (some data)
          (Upstream.success (JContent.ok (Jval.jobj fields)))).status = 200 ∧
      bodyField (generate_news_endpoint true "POST" (some data)
          (Upstream.success (JContent.ok (Jval.jobj fields)))) "body" =
        some (Jval.jstr "No content generated.")) := by
  constructor
  · intro hh hbstr
    cases hb : fields.lookup "body" with
    | none =>
      constructor <;> simp [generate_news_endpoint, hd, hh, hb, bodyField]
    | some v =>
      obtain ⟨str, rfl⟩ := hbstr v hb
      constructor <;> simp [generate_news_endpoint, hd, hh, hb, bodyField]
  · intro hb
    constructor
    · simp [generate_news_endpoint, hd, hb, bodyField]
    · simp [generate_news_endpoint, hd, hb, bodyField]
      rfl

/-- C9 (witness): an empty returned object still yields 200 with both
placeholders. -/
theorem missing_keys_placeholders_witness :
    ((generate_news_endpoint true "POST" (some [("DEM1", "1")])
        (Upstream.success (JContent.ok (Jval.jobj [])))).status = 200 ∧
      bodyField (generate_news_endpoint true "POST" (some [("DEM1", "1")])
          (Upstream.success (JContent.ok (Jval.jobj [])))) "headline" =
        some (Jval.jstr "No Headline")) ∧
    ((generate_news_endpoint true "POST" (some [("DEM1", "1")])
        (Upstream.success (JContent.ok (Jval.jobj [])))).status = 200 ∧
      bodyField (generate_news_endpoint true "POST" (some [("DEM1", "1")])
          (Upstream.success (JContent.ok (Jval.jobj [])))) "body" =
        some (Jval.jstr "No content generated.")) :=
  ⟨(missing_keys_placeholders [("DEM1", "1")] [] (by decide)).1 rfl
      (fun v hv => by cases hv),
   (missing_keys_placeholders [("DEM1", "1")] [] (by decide)).2 rfl⟩

/-- C9 (counterexample): content that parses as valid JSON but is not an
object — here the empty JSON array, which certainly lacks a `"headline"`
key — produces a 500 internal error (`AttributeError` on `.get`), not the
claimed 200 with placeholders. -/
theorem nonobject_content_internal_error :
    (generate_news_endpoint true "POST" (some [("DEM1", "1")])
        (Upstream.success (JContent.ok (Jval.jarr [])))).status = 500 ∧
    (generate_news_endpoint true "POST" (some [("DEM1", "1")])
        (Upstream.success (JContent.ok (Jval.jarr [])))).status ≠ 200 :=
  ⟨rfl, by decide⟩

/-- C10: for every string-valued payload the mapper's profile has exactly
the nine fixed keys in order, each bound to a string (the profile's type);
consequently the `debug_info.profile` object of every 200 response has
exactly these nine keys. -/
theorem profile_has_nine_keys :
    (∀ data : SurveyData, (map_responses data).map Prod.fst = profileKeys) ∧
    ∀ (clientOk : Bool) (method : String) (payload : Option SurveyData)
      (upstream : Upstream),
      (generate_news_endpoint clientOk method payload upstream).status = 200 →
      debugProfileKeys (generate_news_endpoint clientOk method payload upstream) =
        some profileKeys := by
  constructor
  · intro data
    rfl
  · intro clientOk method payload upstream h
    unfold generate_news_endpoint at h ⊢
    repeat' split at h
    all_goals simp_all [internalErrorResp]
    all_goals rfl

/-- C10 (witness): the nine keys of the profile echoed by a concrete 200
response. -/
theorem profile_has_nine_keys_witness :
    debugProfileKeys (generate_news_endpoint true "POST" (some [("DEM1", "1")])
        (Upstream.success (JContent.ok (Jval.jobj [])))) = some profileKeys :=
  profile_has_nine_keys.2 true "POST" (some [("DEM1", "1")])
    (Upstream.success (JContent.ok (Jval.jobj []))) rfl

end DISP2
